import Mathlib

/-!
Verification of the astrobotany plant lifecycle engine.

This file gives a shallow embedding of the engine found in
`src/astrobotany/models.py` (class `Plant`): the `refresh` time-integration
algorithm and the action handlers `water`, `fertilize`, `shake`,
`pick_petal` and `harvest`, together with proofs of the properties stated
in the specification.

Modelling conventions:
* Timestamps are whole seconds (`Int`); `datetime.now()` becomes an explicit
  `now : Int` argument.  Python `timedelta(days = n)` becomes `n * secondsPerDay`.
* Fractional arithmetic (`total_seconds`, the `0.5` fertilizer multiplier and
  the `0.2` generation multiplier) is carried out exactly in `ℚ`; the Python
  `int(...)` truncation is `Int.floor`, which agrees with truncation because
  the truncated quantity is non-negative.
* Randomness (the mutation roll) and the external record store (the event log,
  the visitor-watering query, inventory lookups) are passed in as explicit
  arguments, so every operation is a pure function of its inputs.
* Action handlers return an explicit outcome value in place of the flavour
  message strings; each constructor is documented with the message it stands
  for, and a rejected outcome returns the record unchanged.
-/

namespace Astrobotany

/-- `24 * 60 * 60`, the `seconds_per_day` constant used throughout `models.py`. -/
def secondsPerDay : Int := 24 * 60 * 60

/-- Modelled from the spec: the ordered stage table `constants.STAGES` is data
external to the provided source tree.  Spec section 3 lists the six stages
`seed=0, seedling=1, young=2, mature=3, flowering=4, seed-bearing=5`; the
flowering index 4 is corroborated by the garden view, which filters the
"flowering" garden with `Plant.stage == "4"`. -/
def STAGES : List String := ["seed", "seedling", "young", "mature", "flowering", "seed-bearing"]

/-- The persisted state of one plant: the fields of the Peewee model `Plant`
in `models.py`.  Users are identified by a numeric id. -/
structure Plant where
  id : Nat := 0
  user : Nat := 0
  userActive : Option Nat := none
  createdAt : Int := 0
  updatedAt : Int := 0
  wateredAt : Int := 0
  wateredAtOwner : Int := 0
  wateredBy : Option Nat := none
  fertilizedAt : Int := 0
  generation : Nat := 1
  score : Int := 0
  stage : Nat := 0
  species : Nat := 0
  rarity : Nat := 0
  color : Nat := 0
  mutation : Option Nat := none
  dead : Bool := false
  name : String := ""
  shakenAt : Int := 0
  deriving Repr, DecidableEq

/-- `Plant.growth_rate`: `1 + (self.generation - 1) * 0.2`. -/
def Plant.growthRate (p : Plant) : ℚ := 1 + ((p.generation : ℚ) - 1) * (1 / 5)

/-- `Plant.stage_str`: `constants.STAGES[self.stage]`. -/
def Plant.stageStr (p : Plant) : String := STAGES.getD p.stage ""

/-- `Plant.water_supply_percent`:
`ceil(max(0, 1 - elapsed_seconds / 86400) * 100)`. -/
def Plant.waterSupplyPercent (p : Plant) (now : Int) : Int :=
  ⌈max 0 (1 - ((now - p.wateredAt : Int) : ℚ) / (24 * 60 * 60)) * 100⌉

/-- `Plant.fertilizer_percent`:
`ceil(max(0, 1 - elapsed_seconds / (3 * 86400)) * 100)`. -/
def Plant.fertilizerPercent (p : Plant) (now : Int) : Int :=
  ⌈max 0 (1 - ((now - p.fertilizedAt : Int) : ℚ) / (3 * 24 * 60 * 60)) * 100⌉

/-- `Plant.can_harvest`: `self.dead or self.stage == 5`. -/
def Plant.canHarvest (p : Plant) : Bool := p.dead || p.stage == 5

/-- The `while` loop at the end of `Plant.refresh`:

```
while self.stage < len(constants.STAGES) - 1:
    if self.score >= constants.STAGE_CUTOFFS[self.stage + 1]:
        self.stage += 1
    else:
        break
```

`constants.STAGE_CUTOFFS` is external data not included in the source tree,
so the cutoff table is a parameter.  The fuel argument only bounds the
recursion; `STAGES.length` iterations always suffice because the stage
strictly increases and the loop stops at `STAGES.length - 1`. -/
def advanceStageAux (cutoffs : Nat → Int) (score : Int) : Nat → Nat → Nat
  | 0, stage => stage
  | fuel + 1, stage =>
    if stage < STAGES.length - 1 then
      if cutoffs (stage + 1) ≤ score then advanceStageAux cutoffs score fuel (stage + 1)
      else stage
    else stage

/-- Run the stage-evolution loop from the current stage. -/
def advanceStage (cutoffs : Nat → Int) (score : Int) (stage : Nat) : Nat :=
  advanceStageAux cutoffs score STAGES.length stage

/-- `Plant.refresh`.  `roll` is the outcome of the random mutation roll
(`none` when the roll does not produce a mutation); `cutoffs` is the
`constants.STAGE_CUTOFFS` table. -/
def Plant.refresh (p : Plant) (cutoffs : Nat → Int) (now : Int) (roll : Option Nat) : Plant :=
  let lastUpdated := p.updatedAt
  let p1 : Plant := { p with updatedAt := now }
  -- If it has been >5 days since watering, the plant is dead
  if 5 * secondsPerDay ≤ p1.updatedAt - p1.wateredAt then
    { p1 with dead := true }
  else
    -- Add a tick for every second since we last updated, up to 24 hours
    -- after the last time the plant was watered
    let minTime := max p1.wateredAt lastUpdated
    let maxTime := min (p1.wateredAt + secondsPerDay) p1.updatedAt
    let ticks0 : ℚ := max 0 ((maxTime - minTime : Int) : ℚ)
    -- Add a multiplier for fertilizer, up to 3 days after the last time
    -- that the plant was fertilized
    let minTimeB := max (max p1.fertilizedAt lastUpdated) p1.wateredAt
    let maxTimeB :=
      min (min (p1.fertilizedAt + 3 * secondsPerDay) (p1.wateredAt + secondsPerDay)) p1.updatedAt
    let bonusTicks : ℚ := max 0 ((maxTimeB - minTimeB : Int) : ℚ)
    let ticks1 : ℚ := ticks0 + bonusTicks * (1 / 2)
    let ticks2 : ℚ := ticks1 * p1.growthRate
    let tickCount : Int := ⌊ticks2⌋
    let p2 : Plant := { p1 with score := p1.score + tickCount }
    let p3 : Plant := if p2.mutation.isNone then { p2 with mutation := roll } else p2
    { p3 with stage := advanceStage cutoffs p3.score p3.stage }

/-- Result of `Plant.water`; each constructor stands for the message string
returned by the Python handler. -/
inductive WaterOutcome
  /-- "There is no point in watering a dead plant." -/
  | deadPlant
  /-- "The soil is already damp." -/
  | soilDamp
  /-- "Your watering can is empty, try again later!" (visitor rate limit) -/
  | emptyCan
  /-- "The fence stops you from watering." -/
  | fenced
  /-- watering succeeded -/
  | watered
  deriving Repr, DecidableEq

/-- `Plant.water`.  `visitor = none` is the owner watering their own plant.
`canIsEmpty` is the result of the record-store query for another plant
recently watered by the same visitor, and `fenceActive` is the owner account
flag `user.fence_active`; both checks only run on the visitor path. -/
def Plant.water (p : Plant) (now : Int) (visitor : Option Nat)
    (canIsEmpty : Bool) (fenceActive : Bool) : WaterOutcome × Plant :=
  if p.dead then (.deadPlant, p)
  else if p.waterSupplyPercent now = 100 then (.soilDamp, p)
  else
    match visitor with
    | none =>
      (.watered, { p with wateredAt := now, wateredAtOwner := now, wateredBy := none })
    | some u =>
      if canIsEmpty then (.emptyCan, p)
      else if fenceActive then (.fenced, p)
      else (.watered, { p with wateredAt := now, wateredBy := some u })

/-- Result of `Plant.fertilize`; constructors stand for the returned messages. -/
inductive FertilizeOutcome
  /-- "The fence stops you from fertilizing." -/
  | fenced
  /-- "The soil is still rich with nutrients." -/
  | soilRich
  /-- "You do not have any fertilizer to use, so nothing happened." -/
  | noFertilizer
  /-- fertilizing succeeded -/
  | fertilized
  deriving Repr, DecidableEq

/-- `Plant.fertilize`.  `visitor = none` is the owner; `hasFertilizer` is the
result of `user.remove_item(items.fertilizer)` on the acting user. -/
def Plant.fertilize (p : Plant) (now : Int) (visitor : Option Nat)
    (fenceActive : Bool) (hasFertilizer : Bool) : FertilizeOutcome × Plant :=
  if visitor.isSome && fenceActive then (.fenced, p)
  else if p.fertilizerPercent now ≠ 0 then (.soilRich, p)
  else if !hasFertilizer then (.noFertilizer, p)
  else (.fertilized, { p with fertilizedAt := now })

/-- `Plant.shake`.  Returns the updated plant together with the number of
coins passed to `user.add_item(items.coin, quantity=coins)`. -/
def Plant.shake (p : Plant) : Plant × Int :=
  let multiplier : Int := 3600
  let coins := (p.score - p.shakenAt).fdiv multiplier
  -- Leave fractional coins unclaimed
  let p1 : Plant := { p with shakenAt := p.shakenAt + coins * multiplier }
  -- Hard-cap to encourage users to shake every once and a while
  let coinsCapped := min coins 100
  (p1, coinsCapped)

/-- One row of the `Event` table, as used by `pick_petal`. -/
structure Event where
  user : Nat
  createdAt : Int
  eventType : String
  target : String
  deriving Repr, DecidableEq

/-- `datetime.now().replace(hour=0, minute=0, second=0, microsecond=0)`:
the preceding midnight, with the epoch placed at a midnight. -/
def midnight (now : Int) : Int := secondsPerDay * (now.fdiv secondsPerDay)

/-- Result of `Plant.pick_petal`; constructors stand for the returned messages. -/
inductive PickOutcome
  /-- "You should not be here!" (dead or not flowering) -/
  | notAllowed
  /-- "The ground around this plant is bare, come back tomorrow!" -/
  | alreadyPicked
  /-- a petal was picked up -/
  | picked
  deriving Repr, DecidableEq

/-- Result record for `Plant.pick_petal`: the outcome, the event log after the
call, and the number of petal items added to the inventory of the actor. -/
structure PickResult where
  outcome : PickOutcome
  events : List Event
  granted : Nat
  deriving Repr, DecidableEq

/-- Does an event block the petal pick: same actor, created since the last
midnight, event type `pick_petal`, same target plant? -/
def blocksPick (actor : Nat) (now : Int) (target : String) (e : Event) : Bool :=
  e.user == actor && decide (midnight now ≤ e.createdAt) &&
    e.eventType == "pick_petal" && e.target == target

/-- `Plant.pick_petal` against the current source (`src/astrobotany/models.py`,
midnight-to-midnight day-boundary check).  `actor` is the picking user (the
owner when the Python argument is `None`); `events` is the `Event` table.
The petal colour choice reads the external colour table and does not affect
the number of items granted, so only the grant count is modelled. -/
def Plant.pickPetal (p : Plant) (events : List Event) (actor : Nat) (now : Int) : PickResult :=
  if p.dead then ⟨.notAllowed, events, 0⟩
  else if p.stageStr ≠ "flowering" then ⟨.notAllowed, events, 0⟩
  else
    let target := "plant_" ++ toString p.id
    if events.any (blocksPick actor now target) then ⟨.alreadyPicked, events, 0⟩
    else ⟨.picked, events ++ [⟨actor, now, "pick_petal", target⟩], 1⟩

/-- Creation-time defaults of a fresh plant that come from randomness
(`species`, `rarity`, `color`, `name`) or the record store (`id`). -/
structure NewPlantDefaults where
  id : Nat := 0
  species : Nat := 0
  rarity : Nat := 0
  color : Nat := 0
  name : String := ""
  deriving Repr, DecidableEq

/-- A freshly created `Plant` row: the Peewee field defaults evaluated at
time `now`, with randomness supplied by `d`. -/
def newPlant (now : Int) (d : NewPlantDefaults) (user : Nat) (userActive : Option Nat)
    (generation : Nat) : Plant where
  id := d.id
  user := user
  userActive := userActive
  createdAt := now
  updatedAt := now
  wateredAt := now - secondsPerDay
  wateredAtOwner := now
  wateredBy := none
  fertilizedAt := now - 4 * secondsPerDay
  generation := generation
  score := 0
  stage := 0
  species := d.species
  rarity := d.rarity
  color := d.color
  mutation := none
  dead := false
  name := d.name
  shakenAt := 0

/-- `Plant.harvest`: retire the plant and create the replacement.  Returns
`(retired record, new active plant)`. -/
def Plant.harvest (p : Plant) (now : Int) (d : NewPlantDefaults) : Plant × Plant :=
  let newGeneration := if p.stage = 5 then p.generation + 1 else 1
  let retired : Plant := { p with dead := true, userActive := none }
  (retired, newPlant now d p.user (some p.user) newGeneration)

/-- The guarded harvest action as exposed by the view layer
(`views.py`, `harvest_view`): reject with "You should not be here!" unless
`can_harvest()`.  A rejected call returns the record unchanged and no new
plant. -/
def Plant.harvestAction (p : Plant) (now : Int) (d : NewPlantDefaults) : Plant × Option Plant :=
  if p.canHarvest then
    let r := p.harvest now d
    (r.1, some r.2)
  else (p, none)

/-- A sequence of `refresh` calls: each list entry is the clock value and the
mutation-roll outcome of one call. -/
def refreshSeq (cutoffs : Nat → Int) (p : Plant) : List (Int × Option Nat) → Plant
  | [] => p
  | c :: rest => refreshSeq cutoffs (p.refresh cutoffs c.1 c.2) rest

/-! ### Integer closed forms

The source computes ticks and supply percentages with fractional arithmetic;
the lemmas below restate those computations over `Int` alone, which both
documents the exact rounding behaviour and lets concrete instances be checked
by `decide`. -/

/-- The truncated tick count `int((base + bonus * 0.5) * (1 + (g - 1) * 0.2))`
as a single integer division. -/
theorem floor_ticks (b c g : ℤ) :
    ⌊((b : ℚ) + (c : ℚ) * (1 / 2)) * (1 + ((g : ℚ) - 1) * (1 / 5))⌋ =
      (2 * b + c) * (4 + g) / 10 := by
  have h : ((b : ℚ) + (c : ℚ) * (1 / 2)) * (1 + ((g : ℚ) - 1) * (1 / 5)) =
      (((2 * b + c) * (4 + g) : ℤ) : ℚ) / ((10 : ℕ) : ℚ) := by push_cast; ring
  rw [h, Rat.floor_intCast_div_natCast]
  norm_num

/-- The integer tick count added to `score` by one `refresh` call that does
not hit the death check (proven equal to the rational computation of the
source in `Plant.refresh_eq`). -/
def refreshTicks (p : Plant) (now : Int) : Int :=
  (2 * max 0 (min (p.wateredAt + secondsPerDay) now - max p.wateredAt p.updatedAt) +
      max 0 (min (min (p.fertilizedAt + 3 * secondsPerDay) (p.wateredAt + secondsPerDay)) now -
        max (max p.fertilizedAt p.updatedAt) p.wateredAt)) *
    (4 + (p.generation : Int)) / 10

/-- Closed form of `Plant.refresh` over the integers. -/
theorem Plant.refresh_eq (p : Plant) (cutoffs : Nat → Int) (now : Int) (roll : Option Nat) :
    p.refresh cutoffs now roll =
      if 5 * secondsPerDay ≤ now - p.wateredAt then
        { p with updatedAt := now, dead := true }
      else
        { p with
            updatedAt := now
            score := p.score + refreshTicks p now
            mutation := if p.mutation.isNone then roll else p.mutation
            stage := advanceStage cutoffs (p.score + refreshTicks p now) p.stage } := by
  have key : ∀ (a b : ℤ) (g : ℕ),
      ⌊((0 ⊔ ((a : ℤ) : ℚ)) + (0 ⊔ ((b : ℤ) : ℚ)) * (1 / 2)) * (1 + ((g : ℚ) - 1) * (1 / 5))⌋ =
        (2 * (0 ⊔ a) + (0 ⊔ b)) * (4 + (g : ℤ)) / 10 := by
    intro a b g
    have h1 : ((0 ⊔ ((a : ℤ) : ℚ)) + (0 ⊔ ((b : ℤ) : ℚ)) * (1 / 2)) *
          (1 + ((g : ℚ) - 1) * (1 / 5)) =
        (((0 ⊔ a : ℤ) : ℚ) + ((0 ⊔ b : ℤ) : ℚ) * (1 / 2)) *
          (1 + (((g : ℤ) : ℚ) - 1) * (1 / 5)) := by
      push_cast
      ring
    rw [h1, floor_ticks]
  simp only [Plant.refresh, Plant.growthRate, refreshTicks]
  split
  · rfl
  · rw [key]
    by_cases hm : p.mutation.isNone = true <;>
      simp [hm, Plant.mk.injEq]

/-- Closed form of `Plant.waterSupplyPercent` over the integers. -/
theorem Plant.waterSupplyPercent_eq (p : Plant) (now : Int) :
    p.waterSupplyPercent now = max 0 (100 - (now - p.wateredAt) / 864) := by
  unfold Plant.waterSupplyPercent
  rcases le_or_lt (now - p.wateredAt) 86400 with h | h
  · have hq : (0 : ℚ) ≤ 1 - ((now - p.wateredAt : ℤ) : ℚ) / (24 * 60 * 60) := by
      rw [sub_nonneg, div_le_one (by norm_num)]
      exact_mod_cast h
    have h100 : (1 - ((now - p.wateredAt : ℤ) : ℚ) / (24 * 60 * 60)) * 100 =
        -(((now - p.wateredAt : ℤ) : ℚ) / ((864 : ℕ) : ℚ) - ((100 : ℤ) : ℚ)) := by
      push_cast
      ring
    rw [max_eq_right hq, h100, Int.ceil_neg, Int.floor_sub_int, Rat.floor_intCast_div_natCast,
      max_eq_right (by omega)]
    push_cast
    omega
  · have h' : (86400 : ℚ) < ((now - p.wateredAt : ℤ) : ℚ) := by exact_mod_cast h
    have hq : 1 - ((now - p.wateredAt : ℤ) : ℚ) / (24 * 60 * 60) ≤ 0 := by
      rw [sub_nonpos, le_div_iff₀ (by norm_num)]
      linarith
    rw [max_eq_left hq, zero_mul, Int.ceil_zero, max_eq_left (by omega)]

/-- Closed form of `Plant.fertilizerPercent` over the integers. -/
theorem Plant.fertilizerPercent_eq (p : Plant) (now : Int) :
    p.fertilizerPercent now = max 0 (100 - (now - p.fertilizedAt) / 2592) := by
  unfold Plant.fertilizerPercent
  rcases le_or_lt (now - p.fertilizedAt) 259200 with h | h
  · have hq : (0 : ℚ) ≤ 1 - ((now - p.fertilizedAt : ℤ) : ℚ) / (3 * 24 * 60 * 60) := by
      rw [sub_nonneg, div_le_one (by norm_num)]
      exact_mod_cast h
    have h100 : (1 - ((now - p.fertilizedAt : ℤ) : ℚ) / (3 * 24 * 60 * 60)) * 100 =
        -(((now - p.fertilizedAt : ℤ) : ℚ) / ((2592 : ℕ) : ℚ) - ((100 : ℤ) : ℚ)) := by
      push_cast
      ring
    rw [max_eq_right hq, h100, Int.ceil_neg, Int.floor_sub_int, Rat.floor_intCast_div_natCast,
      max_eq_right (by omega)]
    push_cast
    omega
  · have h' : (259200 : ℚ) < ((now - p.fertilizedAt : ℤ) : ℚ) := by exact_mod_cast h
    have hq : 1 - ((now - p.fertilizedAt : ℤ) : ℚ) / (3 * 24 * 60 * 60) ≤ 0 := by
      rw [sub_nonpos, le_div_iff₀ (by norm_num)]
      linarith
    rw [max_eq_left hq, zero_mul, Int.ceil_zero, max_eq_left (by omega)]

-- Sanity checks against the source unit tests.

/-- watered 12h ago, updated 12h ago: `test_plant_refresh_12h` expects `12 * 3600`. -/
example :
    (Plant.refresh { wateredAt := -43200, updatedAt := -43200, fertilizedAt := -4 * 86400 }
      (fun _ => 10 ^ 9) 0 none).score = 12 * 3600 := by
  rw [Plant.refresh_eq]
  decide

/-- fertilized 6h ago on top: `test_plant_refresh_12h_fertilizer` expects `54000`. -/
example :
    (Plant.refresh { wateredAt := -43200, updatedAt := -43200, fertilizedAt := -21600 }
      (fun _ => 10 ^ 9) 0 none).score = 12 * 3600 + 3 * 3600 := by
  rw [Plant.refresh_eq]
  decide

/-- generation 2: `test_plant_refresh_generation_2_12h` expects `int(12 * 3600 * 1.2)`. -/
example :
    (Plant.refresh { wateredAt := -43200, updatedAt := -43200, fertilizedAt := -4 * 86400, generation := 2 }
      (fun _ => 10 ^ 9) 0 none).score = 51840 := by
  rw [Plant.refresh_eq]
  decide

/-- watered 18h ago, updated 12h ago: `test_plant_refresh_18h` expects `12 * 3600`. -/
example :
    (Plant.refresh { wateredAt := -64800, updatedAt := -43200, fertilizedAt := -4 * 86400 }
      (fun _ => 10 ^ 9) 0 none).score = 12 * 3600 := by
  rw [Plant.refresh_eq]
  decide

/-- watered 36h ago, updated 24h ago: `test_plant_refresh_36h` expects `12 * 3600`. -/
example :
    (Plant.refresh { wateredAt := -129600, updatedAt := -86400, fertilizedAt := -4 * 86400 }
      (fun _ => 10 ^ 9) 0 none).score = 12 * 3600 := by
  rw [Plant.refresh_eq]
  decide

/-- watered 6 days ago: `test_plant_refresh_dead`. -/
example :
    (Plant.refresh { wateredAt := -6 * 86400, updatedAt := -6 * 86400, fertilizedAt := -4 * 86400 }
      (fun _ => 10 ^ 9) 0 none).dead = true := by
  rw [Plant.refresh_eq]
  decide

/-- water supply percent at 12h: 50 (`test_plant_water_supply_percent`). -/
example : (Plant.waterSupplyPercent { wateredAt := -43200 } 0) = 50 := by
  rw [Plant.waterSupplyPercent_eq]
  decide

example : (Plant.waterSupplyPercent { wateredAt := -60 } 0) = 100 := by
  rw [Plant.waterSupplyPercent_eq]
  decide

example : (Plant.waterSupplyPercent { wateredAt := -863 } 0) = 100 := by
  rw [Plant.waterSupplyPercent_eq]
  decide

example : (Plant.waterSupplyPercent { wateredAt := -864 } 0) = 99 := by
  rw [Plant.waterSupplyPercent_eq]
  decide

/-- shake with 500 accrued hours: grants 100 but advances `shakenAt` by `500 * 3600`. -/
example : (Plant.shake { score := 500 * 3600, shakenAt := 0 }).2 = 100 := by decide

example : (Plant.shake { score := 500 * 3600, shakenAt := 0 }).1.shakenAt = 1800000 := by decide

/-- the evolution loop crosses a cutoff -/
example :
    (Plant.refresh { score := 1, wateredAt := -86400, updatedAt := -86400, fertilizedAt := -4 * 86400 }
      (fun n => if n ≤ 1 then 3600 else 10 ^ 9) 0 none).stage = 1 := by
  rw [Plant.refresh_eq]
  decide

/-! ### Supporting lemmas -/

/-- The stage-evolution loop never moves the stage backwards. -/
theorem advanceStageAux_le (cutoffs : Nat → Int) (score : Int) :
    ∀ fuel stage, stage ≤ advanceStageAux cutoffs score fuel stage := by
  intro fuel
  induction fuel with
  | zero => intro stage; exact Nat.le_refl stage
  | succ n ih =>
    intro stage
    simp only [advanceStageAux]
    split
    · split
      · exact Nat.le_trans (Nat.le_succ stage) (ih (stage + 1))
      · exact Nat.le_refl stage
    · exact Nat.le_refl stage

/-- The tick count of a live refresh is never negative. -/
theorem refreshTicks_nonneg (p : Plant) (now : Int) : 0 ≤ refreshTicks p now := by
  unfold refreshTicks
  apply Int.ediv_nonneg _ (by norm_num)
  apply mul_nonneg
  · have h1 := le_max_left (0 : ℤ)
      (min (p.wateredAt + secondsPerDay) now - max p.wateredAt p.updatedAt)
    have h2 := le_max_left (0 : ℤ)
      (min (min (p.fertilizedAt + 3 * secondsPerDay) (p.wateredAt + secondsPerDay)) now -
        max (max p.fertilizedAt p.updatedAt) p.wateredAt)
    linarith
  · have := Int.natCast_nonneg p.generation
    linarith

/-- One `refresh` call never decreases the score. -/
theorem refresh_score_le (cutoffs : Nat → Int) (p : Plant) (now : Int) (roll : Option Nat) :
    p.score ≤ (p.refresh cutoffs now roll).score := by
  rw [Plant.refresh_eq]
  split
  · exact le_refl _
  · have := refreshTicks_nonneg p now
    simp only
    omega

/-- One `refresh` call never decreases the stage. -/
theorem refresh_stage_le (cutoffs : Nat → Int) (p : Plant) (now : Int) (roll : Option Nat) :
    p.stage ≤ (p.refresh cutoffs now roll).stage := by
  rw [Plant.refresh_eq]
  split
  · exact le_refl _
  · exact advanceStageAux_le cutoffs _ STAGES.length p.stage

/-- `refresh` always stamps `updatedAt` with the clock value it was given. -/
theorem refresh_updatedAt (cutoffs : Nat → Int) (p : Plant) (now : Int) (roll : Option Nat) :
    (p.refresh cutoffs now roll).updatedAt = now := by
  rw [Plant.refresh_eq]
  split <;> rfl

/-- A refresh whose elapsed interval is empty (`updatedAt` already equals
`now`) adds zero ticks. -/
theorem refreshTicks_of_updated (p : Plant) (now : Int) (h : p.updatedAt = now) :
    refreshTicks p now = 0 := by
  unfold refreshTicks
  have h1 : min (p.wateredAt + secondsPerDay) now - max p.wateredAt p.updatedAt ≤ 0 := by
    have ha := min_le_right (p.wateredAt + secondsPerDay) now
    have hb := le_max_right p.wateredAt p.updatedAt
    omega
  have h2 : min (min (p.fertilizedAt + 3 * secondsPerDay) (p.wateredAt + secondsPerDay)) now -
      max (max p.fertilizedAt p.updatedAt) p.wateredAt ≤ 0 := by
    have ha := min_le_right
      (min (p.fertilizedAt + 3 * secondsPerDay) (p.wateredAt + secondsPerDay)) now
    have hb := le_max_right p.fertilizedAt p.updatedAt
    have hc := le_max_left (max p.fertilizedAt p.updatedAt) p.wateredAt
    omega
  rw [max_eq_left h1, max_eq_left h2]
  norm_num

/-! ### Claims -/

/-- C1: for every plant that is alive at refresh time (less than 5 days since
`wateredAt`), `refresh` adds to `score` the integer truncation of
`growthRate` times (base ticks plus half the bonus ticks), where base ticks
is the overlap in seconds of `[lastUpdate, now]` with
`[wateredAt, wateredAt + 1 day]` and bonus ticks is the overlap of
`[lastUpdate, now]` with `[fertilizedAt, fertilizedAt + 3 days]` and
`[wateredAt, wateredAt + 1 day]`.  The truncated quantity is non-negative,
so truncation is `Int.floor`.  The worked 12h-plus-fertilizer example is the
witness. -/
theorem refresh_alive_adds_overlap_score (cutoffs : Nat → Int) (p : Plant) (now : Int)
    (roll : Option Nat) (h : now - p.wateredAt < 5 * secondsPerDay) :
    (p.refresh cutoffs now roll).score =
      p.score +
        ⌊p.growthRate *
          (((max 0 (min now (p.wateredAt + secondsPerDay) -
              max p.updatedAt p.wateredAt) : ℤ) : ℚ) +
            ((max 0 (min now (min (p.fertilizedAt + 3 * secondsPerDay)
                (p.wateredAt + secondsPerDay)) -
              max p.updatedAt (max p.fertilizedAt p.wateredAt)) : ℤ) : ℚ) * (1 / 2))⌋ := by
  rw [Plant.refresh_eq, if_neg (by omega)]
  have hb : min now (p.wateredAt + secondsPerDay) - max p.updatedAt p.wateredAt =
      min (p.wateredAt + secondsPerDay) now - max p.wateredAt p.updatedAt := by
    rw [min_comm, max_comm]
  have hc : min now (min (p.fertilizedAt + 3 * secondsPerDay) (p.wateredAt + secondsPerDay)) -
        max p.updatedAt (max p.fertilizedAt p.wateredAt) =
      min (min (p.fertilizedAt + 3 * secondsPerDay) (p.wateredAt + secondsPerDay)) now -
        max (max p.fertilizedAt p.updatedAt) p.wateredAt := by
    rw [min_comm]
    congr 1
    rw [← max_assoc, max_comm p.updatedAt p.fertilizedAt]
  rw [hb, hc]
  simp only [refreshTicks]
  congr 1
  have hmul : p.growthRate *
      (((max 0 (min (p.wateredAt + secondsPerDay) now - max p.wateredAt p.updatedAt) : ℤ) : ℚ) +
        ((max 0 (min (min (p.fertilizedAt + 3 * secondsPerDay) (p.wateredAt + secondsPerDay)) now -
            max (max p.fertilizedAt p.updatedAt) p.wateredAt) : ℤ) : ℚ) * (1 / 2)) =
      (((max 0 (min (p.wateredAt + secondsPerDay) now - max p.wateredAt p.updatedAt) : ℤ) : ℚ) +
        ((max 0 (min (min (p.fertilizedAt + 3 * secondsPerDay) (p.wateredAt + secondsPerDay)) now -
            max (max p.fertilizedAt p.updatedAt) p.wateredAt) : ℤ) : ℚ) * (1 / 2)) *
        (1 + (((p.generation : ℤ) : ℚ) - 1) * (1 / 5)) := by
    simp only [Plant.growthRate]
    push_cast
    ring
  rw [hmul, floor_ticks]

/-- Witness for C1: a generation-1 plant watered 12h ago, last refreshed 12h
ago, fertilized 6h ago, refreshed now gains exactly
`12 * 3600 + (6 * 3600) / 2 = 54000` score. -/
theorem refresh_alive_adds_overlap_score_witness :
    ((0 : Int) - (-43200) < 5 * secondsPerDay) ∧
    (Plant.refresh { wateredAt := -43200, updatedAt := -43200, fertilizedAt := -21600 }
      (fun _ => 10 ^ 9) 0 none).score = 12 * 3600 + 6 * 3600 / 2 := by
  refine ⟨by decide, ?_⟩
  rw [refresh_alive_adds_overlap_score (fun _ => 10 ^ 9)
    { wateredAt := -43200, updatedAt := -43200, fertilizedAt := -21600 } 0 none (by decide)]
  have h54 : ((43200 : ℤ) : ℚ) + ((21600 : ℤ) : ℚ) * (1 / 2) = ((54000 : ℤ) : ℚ) := by
    norm_num
  norm_num [Plant.growthRate, secondsPerDay, h54, Int.floor_intCast]

/-- C2: if at least 5 days have elapsed since `wateredAt` when `refresh` is
called (the comparison is `>=`, so exactly 5 days also triggers), the call
sets `dead := true` and returns at once: every field except `updatedAt` and
`dead` is unchanged. -/
theorem refresh_death_only_sets_dead (cutoffs : Nat → Int) (p : Plant) (now : Int)
    (roll : Option Nat) (h : 5 * secondsPerDay ≤ now - p.wateredAt) :
    p.refresh cutoffs now roll = { p with updatedAt := now, dead := true } := by
  rw [Plant.refresh_eq, if_pos h]

/-- Witness for C2 at the exact 5-day boundary. -/
theorem refresh_death_only_sets_dead_witness :
    (5 * secondsPerDay ≤ (432000 : Int) - (0 : Int)) ∧
    Plant.refresh { wateredAt := 0, score := 7, stage := 2 } (fun _ => 0) 432000 none =
      { ({ wateredAt := 0, score := 7, stage := 2 } : Plant) with
          updatedAt := 432000, dead := true } := by
  refine ⟨by decide, ?_⟩
  exact refresh_death_only_sets_dead (fun _ => 0)
    { wateredAt := 0, score := 7, stage := 2 } 432000 none (by decide)

/-- C3: over any finite sequence of `refresh` calls at non-decreasing clock
times, `score` never decreases and `stage` never decreases. -/
theorem refresh_seq_monotone (cutoffs : Nat → Int) (p : Plant)
    (calls : List (Int × Option Nat))
    (h : calls.Chain' (fun a b => a.1 ≤ b.1)) :
    p.score ≤ (refreshSeq cutoffs p calls).score ∧
      p.stage ≤ (refreshSeq cutoffs p calls).stage := by
  induction calls generalizing p with
  | nil => exact ⟨le_refl _, le_refl _⟩
  | cons c rest ih =>
    obtain ⟨h1, h2⟩ := ih (p.refresh cutoffs c.1 c.2) h.tail
    exact ⟨le_trans (refresh_score_le cutoffs p c.1 c.2) h1,
      le_trans (refresh_stage_le cutoffs p c.1 c.2) h2⟩

/-- Witness for C3: two refresh calls 12h apart. -/
theorem refresh_seq_monotone_witness :
    (List.Chain' (fun a b : Int × Option Nat => a.1 ≤ b.1) [(43200, none), (86400, none)]) ∧
    (({ wateredAt := 0, updatedAt := 0, fertilizedAt := -4 * 86400 } : Plant).score ≤
        (refreshSeq (fun _ => 10 ^ 9)
          { wateredAt := 0, updatedAt := 0, fertilizedAt := -4 * 86400 }
          [(43200, none), (86400, none)]).score ∧
      ({ wateredAt := 0, updatedAt := 0, fertilizedAt := -4 * 86400 } : Plant).stage ≤
        (refreshSeq (fun _ => 10 ^ 9)
          { wateredAt := 0, updatedAt := 0, fertilizedAt := -4 * 86400 }
          [(43200, none), (86400, none)]).stage) := by
  have hchain : List.Chain' (fun a b : Int × Option Nat => a.1 ≤ b.1)
      [(43200, none), (86400, none)] := by
    rw [List.chain'_cons]
    exact ⟨by decide, List.chain'_singleton _⟩
  refine ⟨hchain, ?_⟩
  exact refresh_seq_monotone (fun _ => 10 ^ 9)
    { wateredAt := 0, updatedAt := 0, fertilizedAt := -4 * 86400 }
    [(43200, none), (86400, none)] hchain

/-- C4: calling `refresh` twice with the same clock value leaves the score
after the second call equal to the score after the first call: the interval
`[updatedAt, now]` is then empty, so the overlap computation yields zero
ticks. -/
theorem refresh_twice_same_now_score (cutoffs : Nat → Int) (p : Plant) (now : Int)
    (roll1 roll2 : Option Nat) :
    ((p.refresh cutoffs now roll1).refresh cutoffs now roll2).score =
      (p.refresh cutoffs now roll1).score := by
  have hup := refresh_updatedAt cutoffs p now roll1
  generalize p.refresh cutoffs now roll1 = q at hup ⊢
  rw [Plant.refresh_eq]
  split
  · rfl
  · simp only
    rw [refreshTicks_of_updated q now hup]
    omega

/-- C5 counterexample: a plant holding 500 accrued-but-unshaken hours of
score.  One `shake` grants the capped 100 coins, but `shakenAt` advances by
the full uncapped `500 * 3600`, not by `100 * 3600` as the claim states: the
value above the cap is forfeited, not retained. -/
theorem shake_cap_counterexample :
    (({ score := 500 * 3600, shakenAt := 0 } : Plant).score -
        ({ score := 500 * 3600, shakenAt := 0 } : Plant).shakenAt = 500 * 3600) ∧
    (Plant.shake { score := 500 * 3600, shakenAt := 0 }).2 = 100 ∧
    (Plant.shake { score := 500 * 3600, shakenAt := 0 }).1.shakenAt = 500 * 3600 ∧
    ¬ (Plant.shake { score := 500 * 3600, shakenAt := 0 }).1.shakenAt =
        ({ score := 500 * 3600, shakenAt := 0 } : Plant).shakenAt + 100 * 3600 := by
  refine ⟨by decide, by decide, by decide, by decide⟩

/-- C5 (amended): with `score - shakenAt = 500 * 3600`, one `shake` call
grants exactly 100 coins (the cap), and `shakenAt` advances by the full
uncapped `500 * 3600`; the value above the cap is forfeited rather than left
un-shaken for the next call. -/
theorem shake_full_catchup (p : Plant) (h : p.score - p.shakenAt = 500 * 3600) :
    (p.shake).2 = 100 ∧ (p.shake).1.shakenAt = p.shakenAt + 500 * 3600 := by
  have h500 : (p.score - p.shakenAt).fdiv 3600 = 500 := by rw [h]; decide
  refine ⟨?_, ?_⟩
  · show min ((p.score - p.shakenAt).fdiv 3600) 100 = 100
    rw [h500]
    decide
  · show p.shakenAt + (p.score - p.shakenAt).fdiv 3600 * 3600 = p.shakenAt + 500 * 3600
    rw [h500]

/-- Witness for the amended C5. -/
theorem shake_full_catchup_witness :
    (({ score := 1803600, shakenAt := 3600 } : Plant).score -
        ({ score := 1803600, shakenAt := 3600 } : Plant).shakenAt = 500 * 3600) ∧
    ((Plant.shake { score := 1803600, shakenAt := 3600 }).2 = 100 ∧
      (Plant.shake { score := 1803600, shakenAt := 3600 }).1.shakenAt =
        ({ score := 1803600, shakenAt := 3600 } : Plant).shakenAt + 500 * 3600) := by
  refine ⟨by decide, ?_⟩
  exact shake_full_catchup { score := 1803600, shakenAt := 3600 } (by decide)

/-- C6: `harvest` is valid only when the plant is dead or at the terminal
stage 5; invoking the guarded harvest action on any other plant is rejected
and leaves the record unchanged (no replacement plant is created). -/
theorem harvest_rejected_when_not_ready (p : Plant) (now : Int) (d : NewPlantDefaults)
    (h1 : p.dead = false) (h2 : p.stage ≠ 5) :
    p.harvestAction now d = (p, none) := by
  have hch : p.canHarvest = false := by
    simp [Plant.canHarvest, h1, h2]
  unfold Plant.harvestAction
  rw [hch]
  simp

/-- Witness for C6: a live stage-3 plant. -/
theorem harvest_rejected_when_not_ready_witness :
    (({ stage := 3 } : Plant).dead = false ∧ ({ stage := 3 } : Plant).stage ≠ 5) ∧
    Plant.harvestAction { stage := 3 } 0 {} = ({ stage := 3 }, none) := by
  refine ⟨⟨rfl, by decide⟩, ?_⟩
  exact harvest_rejected_when_not_ready { stage := 3 } 0 {} rfl (by decide)

/-- C7: `harvest` marks the retiring record dead, clears its `userActive`
link, and creates a replacement whose `userActive` is the owner and whose
generation is `old + 1` exactly when the retiring plant was at the terminal
stage 5, and `1` otherwise (including a dead plant below stage 5). -/
theorem harvest_retires_and_sets_generation (p : Plant) (now : Int) (d : NewPlantDefaults) :
    (p.harvest now d).1 = { p with dead := true, userActive := none } ∧
    (p.harvest now d).2.userActive = some p.user ∧
    (p.harvest now d).2.generation = (if p.stage = 5 then p.generation + 1 else 1) := by
  unfold Plant.harvest newPlant
  exact ⟨rfl, rfl, rfl⟩

/-- The preceding midnight of an instant in the same calendar day as `t1` is
no later than `t1`. -/
theorem midnight_le_self_of_same_day (t1 t2 : Int)
    (hday : t2.fdiv secondsPerDay = t1.fdiv secondsPerDay) : midnight t2 ≤ t1 := by
  unfold midnight
  rw [hday, Int.fdiv_eq_ediv _ (by norm_num [secondsPerDay])]
  simp only [secondsPerDay]
  omega

/-- An instant in an earlier calendar day precedes the midnight of a later
day. -/
theorem lt_midnight_of_day_lt (t1 t2 : Int)
    (hday : t1.fdiv secondsPerDay < t2.fdiv secondsPerDay) : t1 < midnight t2 := by
  unfold midnight
  rw [Int.fdiv_eq_ediv _ (by norm_num [secondsPerDay])] at hday ⊢
  rw [Int.fdiv_eq_ediv _ (by norm_num [secondsPerDay])] at hday
  simp only [secondsPerDay] at hday ⊢
  omega

/-- C8: for a flowering, non-dead plant, at most one petal is granted per
actor per calendar day.  Starting from an empty event log, the first
`pick_petal` call grants a petal; a second call by the same actor on the
same plant during the same calendar day is rejected with no grant and no log
change, while a call in any later calendar day grants a second petal even
when fewer than 24 hours have elapsed (the check is midnight-to-midnight,
not a rolling 24 hours). -/
theorem pick_petal_daily_limit (p : Plant) (actor : Nat) (t1 t2 : Int)
    (hd : p.dead = false) (hs : p.stage = 4) (_h12 : t1 ≤ t2) :
    (p.pickPetal [] actor t1).granted = 1 ∧
    (t2.fdiv secondsPerDay = t1.fdiv secondsPerDay →
      (p.pickPetal (p.pickPetal [] actor t1).events actor t2).granted = 0 ∧
      (p.pickPetal (p.pickPetal [] actor t1).events actor t2).events =
        (p.pickPetal [] actor t1).events) ∧
    (t1.fdiv secondsPerDay < t2.fdiv secondsPerDay →
      (p.pickPetal (p.pickPetal [] actor t1).events actor t2).granted = 1) := by
  have hflower : p.stageStr = "flowering" := by
    rw [Plant.stageStr, hs]
    rfl
  have hr1 : p.pickPetal [] actor t1 =
      ⟨.picked, [⟨actor, t1, "pick_petal", "plant_" ++ toString p.id⟩], 1⟩ := by
    unfold Plant.pickPetal
    rw [if_neg (by simp [hd]), if_neg (by simp [hflower])]
    simp
  refine ⟨by rw [hr1], ?_, ?_⟩
  · intro hday
    have hm : midnight t2 ≤ t1 := midnight_le_self_of_same_day t1 t2 hday
    rw [hr1]
    unfold Plant.pickPetal
    rw [if_neg (by simp [hd]), if_neg (by simp [hflower])]
    have hblock : ([⟨actor, t1, "pick_petal", "plant_" ++ toString p.id⟩] : List Event).any
        (blocksPick actor t2 ("plant_" ++ toString p.id)) = true := by
      simp [blocksPick, hm]
    rw [if_pos hblock]
    exact ⟨rfl, rfl⟩
  · intro hday
    have hm : t1 < midnight t2 := lt_midnight_of_day_lt t1 t2 hday
    have hnot : ¬ midnight t2 ≤ t1 := not_le.mpr hm
    rw [hr1]
    unfold Plant.pickPetal
    rw [if_neg (by simp [hd]), if_neg (by simp [hflower])]
    have hblock : ([⟨actor, t1, "pick_petal", "plant_" ++ toString p.id⟩] : List Event).any
        (blocksPick actor t2 ("plant_" ++ toString p.id)) = false := by
      simp [blocksPick, hnot]
    rw [if_neg (by simp [hblock])]

/-- Witness for C8: actor 7 picks at 01:00 of day 0 and again at 01:00 of
day 1 (25 hours would be `90000`; here `t2 = 90000` is exactly 24h later in
the next calendar day). -/
theorem pick_petal_daily_limit_witness :
    (({ stage := 4 } : Plant).dead = false ∧ ({ stage := 4 } : Plant).stage = 4 ∧
      (3600 : Int) ≤ 90000) ∧
    ((({ stage := 4 } : Plant).pickPetal [] 7 3600).granted = 1 ∧
      ((90000 : Int).fdiv secondsPerDay = (3600 : Int).fdiv secondsPerDay →
        (({ stage := 4 } : Plant).pickPetal
            (({ stage := 4 } : Plant).pickPetal [] 7 3600).events 7 90000).granted = 0 ∧
        (({ stage := 4 } : Plant).pickPetal
            (({ stage := 4 } : Plant).pickPetal [] 7 3600).events 7 90000).events =
          (({ stage := 4 } : Plant).pickPetal [] 7 3600).events) ∧
      ((3600 : Int).fdiv secondsPerDay < (90000 : Int).fdiv secondsPerDay →
        (({ stage := 4 } : Plant).pickPetal
            (({ stage := 4 } : Plant).pickPetal [] 7 3600).events 7 90000).granted = 1)) := by
  refine ⟨⟨rfl, rfl, by decide⟩, ?_⟩
  exact pick_petal_daily_limit { stage := 4 } 7 3600 90000 rfl rfl (by decide)

/-- `water` never writes `score` or `shakenAt`. -/
theorem water_score_shaken (p : Plant) (now : Int) (visitor : Option Nat) (c f : Bool) :
    (p.water now visitor c f).2.score = p.score ∧
      (p.water now visitor c f).2.shakenAt = p.shakenAt := by
  by_cases h1 : p.dead = true
  · simp [Plant.water, h1]
  · by_cases h2 : p.waterSupplyPercent now = 100
    · simp [Plant.water, h1, h2]
    · rcases visitor with _ | u <;> cases c <;> cases f <;>
        simp [Plant.water, h1, h2]

/-- `fertilize` never writes `score` or `shakenAt`. -/
theorem fertilize_score_shaken (p : Plant) (now : Int) (visitor : Option Nat) (f hf : Bool) :
    (p.fertilize now visitor f hf).2.score = p.score ∧
      (p.fertilize now visitor f hf).2.shakenAt = p.shakenAt := by
  rcases visitor with _ | u <;> cases f <;> cases hf <;>
    by_cases hp : p.fertilizerPercent now ≠ 0 <;>
      simp [Plant.fertilize, hp]

/-- C9: from any state with `shakenAt ≤ score`, every engine operation
preserves `shakenAt ≤ score`; in particular `shake` advances `shakenAt` by a
whole multiple of 3600 that never exceeds the un-shaken difference
`score - shakenAt`.  (`pick_petal` writes no plant field in the source, so
it cannot disturb the invariant; `harvest` covers both the retired record
and the replacement.) -/
theorem shaken_le_score_preserved (p : Plant) (hp : p.shakenAt ≤ p.score) :
    (∀ cutoffs now roll,
      (p.refresh cutoffs now roll).shakenAt ≤ (p.refresh cutoffs now roll).score) ∧
    (∀ now visitor c f,
      (p.water now visitor c f).2.shakenAt ≤ (p.water now visitor c f).2.score) ∧
    (∀ now visitor f hf,
      (p.fertilize now visitor f hf).2.shakenAt ≤ (p.fertilize now visitor f hf).2.score) ∧
    ((p.shake.1.shakenAt ≤ p.shake.1.score) ∧
      (3600 : Int) ∣ p.shake.1.shakenAt - p.shakenAt ∧
      p.shake.1.shakenAt - p.shakenAt ≤ p.score - p.shakenAt) ∧
    (∀ now d, (p.harvest now d).1.shakenAt ≤ (p.harvest now d).1.score ∧
      (p.harvest now d).2.shakenAt ≤ (p.harvest now d).2.score) := by
  refine ⟨?_, ?_, ?_, ?_, ?_⟩
  · intro cutoffs now roll
    rw [Plant.refresh_eq]
    split
    · exact hp
    · show p.shakenAt ≤ p.score + refreshTicks p now
      have := refreshTicks_nonneg p now
      omega
  · intro now visitor c f
    obtain ⟨h1, h2⟩ := water_score_shaken p now visitor c f
    omega
  · intro now visitor f hf
    obtain ⟨h1, h2⟩ := fertilize_score_shaken p now visitor f hf
    omega
  · have hed : (p.score - p.shakenAt).fdiv 3600 = (p.score - p.shakenAt) / 3600 :=
      Int.fdiv_eq_ediv _ (by norm_num)
    refine ⟨?_, ⟨(p.score - p.shakenAt).fdiv 3600, ?_⟩, ?_⟩
    · show p.shakenAt + (p.score - p.shakenAt).fdiv 3600 * 3600 ≤ p.score
      rw [hed]
      omega
    · show p.shakenAt + (p.score - p.shakenAt).fdiv 3600 * 3600 - p.shakenAt = _
      ring
    · show p.shakenAt + (p.score - p.shakenAt).fdiv 3600 * 3600 - p.shakenAt ≤
        p.score - p.shakenAt
      rw [hed]
      omega
  · intro now d
    exact ⟨hp, le_refl _⟩

/-- Witness for C9, read off on the `shake` conjunct. -/
theorem shaken_le_score_preserved_witness :
    (({ score := 7200, shakenAt := 100 } : Plant).shakenAt ≤
        ({ score := 7200, shakenAt := 100 } : Plant).score) ∧
    (Plant.shake { score := 7200, shakenAt := 100 }).1.shakenAt ≤
      (Plant.shake { score := 7200, shakenAt := 100 }).1.score := by
  refine ⟨by decide, ?_⟩
  exact (shaken_le_score_preserved { score := 7200, shakenAt := 100 } (by decide)).2.2.2.1.1

/-- C10: `waterSupplyPercent` uses ceiling rounding, so for a living plant it
reads 100 for every elapsed time from 0 up to (but excluding) 864 seconds
after watering, and an owner watering attempt in that window is rejected
("The soil is already damp.") with no state change; at exactly 864 elapsed
seconds the percent drops to 99 and watering succeeds.  (Elapsed time since
`wateredAt` is non-negative: every write to `wateredAt` stores the current
clock.) -/
theorem water_cooldown_864 (p : Plant) (now : Int) (c f : Bool)
    (hd : p.dead = false) (h0 : 0 ≤ now - p.wateredAt) :
    (now - p.wateredAt < 864 →
      p.waterSupplyPercent now = 100 ∧ p.water now none c f = (.soilDamp, p)) ∧
    (now - p.wateredAt = 864 →
      p.waterSupplyPercent now = 99 ∧
      p.water now none c f =
        (.watered, { p with wateredAt := now, wateredAtOwner := now, wateredBy := none })) := by
  constructor
  · intro h
    have hp100 : p.waterSupplyPercent now = 100 := by
      rw [Plant.waterSupplyPercent_eq, max_eq_right (by omega)]
      omega
    refine ⟨hp100, ?_⟩
    unfold Plant.water
    rw [if_neg (by simp [hd]), if_pos hp100]
  · intro h
    have hp99 : p.waterSupplyPercent now = 99 := by
      rw [Plant.waterSupplyPercent_eq, max_eq_right (by omega)]
      omega
    have hne : ¬ p.waterSupplyPercent now = 100 := by
      rw [hp99]
      norm_num
    refine ⟨hp99, ?_⟩
    unfold Plant.water
    rw [if_neg (by simp [hd]), if_neg hne]

/-- Witness for C10 at the exact 864-second boundary. -/
theorem water_cooldown_864_witness :
    (({ wateredAt := 0 } : Plant).dead = false ∧
      (0 : Int) ≤ 864 - ({ wateredAt := 0 } : Plant).wateredAt) ∧
    (Plant.waterSupplyPercent { wateredAt := 0 } 864 = 99 ∧
      Plant.water { wateredAt := 0 } 864 none false false =
        (.watered, { ({ wateredAt := 0 } : Plant) with
            wateredAt := 864, wateredAtOwner := 864, wateredBy := none })) := by
  refine ⟨⟨rfl, by decide⟩, ?_⟩
  exact (water_cooldown_864 { wateredAt := 0 } 864 false false rfl (by decide)).2 (by decide)

end Astrobotany
